import Mathlib

/-!
Verification of the `Plugin::PluginLoader` component
(include/Plugin/PluginLoader.h, the 2012-2013 version with the
`errorMsg_` field and the empty-name check in `load()`).

Modelling choices (shallow embedding):
* Pointers and library handles are `Nat`, with `0` playing the role of
  `NULL`, exactly as the C++ code compares `libHandle_ != 0` and
  `!plugin_`.
* The OS dynamic loader (`dlopen` / `dlclose` / `dlsym` / `dlerror`) is an
  oracle `OS`, a record of functions describing what every OS call returns
  during the run.  `dlerror` text is attached per failing operation
  (`openMsg`, `closeMsg`, `symMsg`), which is how `saveErrorMsg()` observes
  it: it stores the text only when `dlerror()` returned non-NULL.
* `assert(func)` firing inside `callFunction` (unresolvable factory
  symbol) aborts the program; a method that can reach it returns
  `Option _`, with `none` standing for that abort.
* Methods additionally return the list of plugin factory symbols they
  actually invoked, so "the factory was not re-invoked" is expressible.
-/

namespace Plugin

/-- Symbol name of the facade factory (`PLUGIN_FACTORY_CREATE`). -/
def PLUGIN_FACTORY_CREATE : String := "createPluginFacade"

/-- Symbol name of the facade destructor (`PLUGIN_FACTORY_DESTROY`). -/
def PLUGIN_FACTORY_DESTROY : String := "destroyPluginFacade"

/-- Oracle describing the OS dynamic loader during one run.
Handles and function addresses are `Nat`; `0` means `NULL`. -/
structure OS where
  /-- `dlopen(name, RTLD_LAZY)`: resulting handle, `0` on failure. -/
  dlopen : String → Nat
  /-- `dlerror()` text available after a failed `dlopen(name)`. -/
  openMsg : String → Option String
  /-- `dlclose(handle)`: `true` iff it returned `0` (success). -/
  dlclose : Nat → Bool
  /-- `dlerror()` text available after a failed `dlclose(handle)`. -/
  closeMsg : Nat → Option String
  /-- `dlsym(handle, symbol)`: resolved address, `0` when not found. -/
  dlsym : Nat → String → Nat
  /-- `dlerror()` text available after a failed `dlsym(handle, symbol)`. -/
  symMsg : Nat → String → Option String
  /-- Result of calling the zero-argument function at a resolved address
  (used for the create factory; the destroy factory's return is void). -/
  invoke : Nat → Nat

/-- The private state of `Plugin::PluginLoader<T>`:
`name_`, `plugin_` (cached facade pointer), `libHandle_`, `errorMsg_`. -/
structure PluginLoader where
  name_ : String
  plugin_ : Nat
  libHandle_ : Nat
  errorMsg_ : String
  deriving DecidableEq, Repr

/-- `PluginLoader(name)`: stores the name, null facade pointer, null
library handle, empty error message. -/
def PluginLoader.init (name : String) : PluginLoader :=
  { name_ := name, plugin_ := 0, libHandle_ := 0, errorMsg_ := "" }

/-- `isLoaded()`: `libHandle_ != 0`. -/
def PluginLoader.isLoaded (l : PluginLoader) : Bool :=
  l.libHandle_ != 0

/-- `getErrorMsg()`: returns `errorMsg_`. -/
def PluginLoader.getErrorMsg (l : PluginLoader) : String :=
  l.errorMsg_

/-- `getPluginName()`: returns `name_`. -/
def PluginLoader.getPluginName (l : PluginLoader) : String :=
  l.name_

/-- `setPluginName(name)`: overwrites `name_`. -/
def PluginLoader.setPluginName (name : String) (l : PluginLoader) : PluginLoader :=
  { l with name_ := name }

/-- `saveErrorMsg()`: `char* str = dlerror(); if (str) errorMsg_ = str;`.
The argument is the `dlerror()` text the OS provides for the failure that
just happened (`none` = `dlerror()` returned NULL, message unchanged). -/
def saveErrorMsg (msg : Option String) (l : PluginLoader) : PluginLoader :=
  match msg with
  | some s => { l with errorMsg_ := s }
  | none => l

/-- `loadLibrary()` (POSIX branch):
`libHandle_ = dlopen(name_.c_str(), RTLD_LAZY); if (!libHandle_)
saveErrorMsg(); return libHandle_ != NULL;`. -/
def loadLibrary (os : OS) (l : PluginLoader) : Bool × PluginLoader :=
  let h := os.dlopen l.name_
  let l1 := { l with libHandle_ := h }
  if h = 0 then (false, saveErrorMsg (os.openMsg l.name_) l1)
  else (true, l1)

/-- `unloadLibrary()` (POSIX branch):
`int res = dlclose(libHandle_); if (res != 0) saveErrorMsg();
return res == 0;`. -/
def unloadLibrary (os : OS) (l : PluginLoader) : Bool × PluginLoader :=
  if os.dlclose l.libHandle_ then (true, l)
  else (false, saveErrorMsg (os.closeMsg l.libHandle_) l)

/-- `getFunction(name)` (POSIX branch):
`void* result = dlsym(libHandle_, name); if (!result) saveErrorMsg();
return result;`. -/
def getFunction (os : OS) (fn : String) (l : PluginLoader) : Nat × PluginLoader :=
  let r := os.dlsym l.libHandle_ fn
  if r = 0 then (0, saveErrorMsg (os.symMsg l.libHandle_ fn) l)
  else (r, l)

/-- `callFunction<R>(fn)`: resolves `fn` through `getFunction`, then
`assert(func); return (*func)();`.  `none` models the assertion firing on
an unresolvable symbol; otherwise the pair is (returned value, state). -/
def callFunction (os : OS) (fn : String) (l : PluginLoader) :
    Option (Nat × PluginLoader) :=
  let fl := getFunction os fn l
  if fl.1 = 0 then none else some (os.invoke fl.1, fl.2)

/-- `unload()`: if loaded, first destroy the facade when one is cached
(invoke `PLUGIN_FACTORY_DESTROY`, clear `plugin_`), then `unloadLibrary()`;
clear `libHandle_` only when the close succeeded.  When not loaded it is a
no-op returning `true`.  The `List String` records the factory symbols
invoked; `none` models the `assert` firing on a missing destroy symbol. -/
def unload (os : OS) (l : PluginLoader) :
    Option (Bool × PluginLoader × List String) :=
  if l.isLoaded then
    match
      (if l.plugin_ ≠ 0 then
        (callFunction os PLUGIN_FACTORY_DESTROY l).map
          (fun r => ({ r.2 with plugin_ := 0 }, [PLUGIN_FACTORY_DESTROY]))
      else some (l, []))
    with
    | none => none
    | some (l1, ev) =>
      let rl := unloadLibrary os l1
      let l2 := if rl.1 then { rl.2 with libHandle_ := 0 } else rl.2
      some (rl.1, l2, ev)
  else some (true, l, [])

/-- `load()`: `if (isLoaded()) unload();` (result discarded), then
`if (name_.empty()) return false;` then `return loadLibrary();`. -/
def load (os : OS) (l : PluginLoader) :
    Option (Bool × PluginLoader × List String) :=
  match (if l.isLoaded then unload os l else some (true, l, [])) with
  | none => none
  | some (_, l1, ev) =>
    if l1.name_ = "" then some (false, l1, ev)
    else
      let rl := loadLibrary os l1
      some (rl.1, rl.2, ev)

/-- `getPluginInstance()`: `if (!isLoaded()) return NULL;
if (!plugin_) plugin_ = callFunction<T*>(PLUGIN_FACTORY_CREATE);
return plugin_;`. -/
def getPluginInstance (os : OS) (l : PluginLoader) :
    Option (Nat × PluginLoader × List String) :=
  if ¬ l.isLoaded then some (0, l, [])
  else if l.plugin_ = 0 then
    (callFunction os PLUGIN_FACTORY_CREATE l).map
      (fun r => (r.1, { r.2 with plugin_ := r.1 }, [PLUGIN_FACTORY_CREATE]))
  else some (l.plugin_, l, [])

/-- `~PluginLoader()`: `unload();` with the result discarded. -/
def destruct (os : OS) (l : PluginLoader) : Option PluginLoader :=
  (unload os l).map (fun r => r.2.1)

/-- The public operations a client can perform on a loader. -/
inductive Op where
  | load : Op
  | unload : Op
  | getInstance : Op
  | setName : String → Op
  | destruct : Op
  deriving DecidableEq, Repr

/-- One public operation applied to the loader state (`none` = the
assertion in `callFunction` fired). -/
def step (os : OS) (l : PluginLoader) : Op → Option PluginLoader
  | Op.load => (load os l).map (fun r => r.2.1)
  | Op.unload => (unload os l).map (fun r => r.2.1)
  | Op.getInstance => (getPluginInstance os l).map (fun r => r.2.1)
  | Op.setName n => some (l.setPluginName n)
  | Op.destruct => destruct os l

/-- A sequence of public operations applied left to right. -/
def run (os : OS) (ops : List Op) (l : PluginLoader) : Option PluginLoader :=
  match ops with
  | [] => some l
  | o :: rest =>
    match step os l o with
    | none => none
    | some l1 => run os rest l1

/-- The data-model invariant: a facade pointer is cached only while the
library handle is non-null. -/
def Inv (l : PluginLoader) : Prop :=
  l.plugin_ ≠ 0 → l.libHandle_ ≠ 0

instance (l : PluginLoader) : Decidable (Inv l) := by
  unfold Inv; infer_instance

/-! ### Helper lemmas -/

@[simp]
lemma isLoaded_true_iff (l : PluginLoader) : l.isLoaded = true ↔ l.libHandle_ ≠ 0 := by
  simp [PluginLoader.isLoaded]

@[simp]
lemma isLoaded_false_iff (l : PluginLoader) : l.isLoaded = false ↔ l.libHandle_ = 0 := by
  simp [PluginLoader.isLoaded]

@[simp]
lemma saveErrorMsg_plugin (msg : Option String) (l : PluginLoader) :
    (saveErrorMsg msg l).plugin_ = l.plugin_ := by
  cases msg <;> rfl

@[simp]
lemma saveErrorMsg_libHandle (msg : Option String) (l : PluginLoader) :
    (saveErrorMsg msg l).libHandle_ = l.libHandle_ := by
  cases msg <;> rfl

@[simp]
lemma saveErrorMsg_name (msg : Option String) (l : PluginLoader) :
    (saveErrorMsg msg l).name_ = l.name_ := by
  cases msg <;> rfl

/-! ### Concrete OS oracles used by witnesses and counterexamples -/

/-- An oracle on which every `dlopen` fails and `dlerror` always provides
text for the failure; symbols never resolve. -/
def osFail : OS :=
  { dlopen := fun _ => 0
    openMsg := fun n => some ("cannot open " ++ n)
    dlclose := fun _ => true
    closeMsg := fun _ => none
    dlsym := fun _ _ => 0
    symMsg := fun _ _ => some "symbol missing"
    invoke := fun _ => 0 }

/-- An oracle where the plugin "p" maps at handle 5, the create factory
resolves at address 8 and returns facade pointer 9, the destroy factory
resolves at address 7, and `dlclose` succeeds. -/
def osGood : OS :=
  { dlopen := fun n => if n = "p" then 5 else 0
    openMsg := fun n => some ("cannot open " ++ n)
    dlclose := fun _ => true
    closeMsg := fun _ => none
    dlsym := fun h s =>
      if h = 5 ∧ s = PLUGIN_FACTORY_CREATE then 8
      else if h = 5 ∧ s = PLUGIN_FACTORY_DESTROY then 7
      else 0
    symMsg := fun _ _ => some "symbol missing"
    invoke := fun a => if a = 8 then 9 else 0 }

/-- Like `osGood` but `dlclose` always fails. -/
def osCloseFail : OS :=
  { osGood with
    dlclose := fun _ => false
    closeMsg := fun _ => some "close failed" }

/-- Like `osGood` but no symbol ever resolves. -/
def osNoSym : OS :=
  { osGood with dlsym := fun _ _ => 0 }

/-! ### Claim theorems -/

/-- Claim C8: a freshly constructed loader reports `isLoaded() = false`,
and on any loader in the Unloaded state `getPluginInstance()` returns
NULL, leaves the state unchanged, and invokes no factory symbol. -/
theorem fresh_unloaded_and_instance_null (os : OS) (name : String)
    (l : PluginLoader) (h : l.isLoaded = false) :
    (PluginLoader.init name).isLoaded = false ∧
    getPluginInstance os l = some (0, l, []) := by
  refine ⟨rfl, ?_⟩
  rw [isLoaded_false_iff] at h
  simp [getPluginInstance, PluginLoader.isLoaded, h]

/-- Witness for C8 at a concrete Unloaded loader. -/
theorem fresh_unloaded_and_instance_null_witness :
    (PluginLoader.init "p").isLoaded = false ∧
    getPluginInstance osGood (PluginLoader.init "p") =
      some (0, PluginLoader.init "p", []) :=
  fresh_unloaded_and_instance_null osGood "p" (PluginLoader.init "p") (by decide)

/-- Claim C5: on a loader whose library is mapped but whose create-facade
symbol does not resolve, `getPluginInstance()` hits the `assert(func)`
(modelled as `none`, an abort), while in the library-not-loaded case it
silently returns NULL — the two conditions are signalled distinctly. -/
theorem missing_create_symbol_asserts (os : OS) (l : PluginLoader)
    (hL : l.isLoaded = true) (hp : l.plugin_ = 0)
    (hs : os.dlsym l.libHandle_ PLUGIN_FACTORY_CREATE = 0) :
    getPluginInstance os l = none ∧
    ∀ l2 : PluginLoader, l2.isLoaded = false →
      getPluginInstance os l2 = some (0, l2, []) := by
  rw [isLoaded_true_iff] at hL
  constructor
  · simp [getPluginInstance, PluginLoader.isLoaded, hL, hp, callFunction,
      getFunction, hs]
  · intro l2 h2
    rw [isLoaded_false_iff] at h2
    simp [getPluginInstance, PluginLoader.isLoaded, h2]

/-- Witness for C5: a mapped library (handle 5) where no symbol resolves. -/
theorem missing_create_symbol_asserts_witness :
    getPluginInstance osNoSym
      { name_ := "p", plugin_ := 0, libHandle_ := 5, errorMsg_ := "" } = none ∧
    ∀ l2 : PluginLoader, l2.isLoaded = false →
      getPluginInstance osNoSym l2 = some (0, l2, []) :=
  missing_create_symbol_asserts osNoSym
    { name_ := "p", plugin_ := 0, libHandle_ := 5, errorMsg_ := "" }
    (by decide) (by decide) (by decide)

/-- Claim C3: once a call to `getPluginInstance()` has produced a non-null
facade pointer (the loader is Active), calling it again returns the
identical pointer, leaves the state unchanged, and invokes no factory
symbol (empty invocation list). -/
theorem instance_cached_idempotent (os : OS) (l l' : PluginLoader)
    (p : Nat) (ev : List String)
    (h : getPluginInstance os l = some (p, l', ev)) (hp : p ≠ 0) :
    getPluginInstance os l' = some (p, l', []) := by
  by_cases hL : l.libHandle_ = 0
  · simp [getPluginInstance, PluginLoader.isLoaded, hL] at h
    exact absurd h.1.symm hp
  · by_cases hpl : l.plugin_ = 0
    · by_cases hf : os.dlsym l.libHandle_ PLUGIN_FACTORY_CREATE = 0
      · simp [getPluginInstance, callFunction, getFunction,
          PluginLoader.isLoaded, hL, hpl, hf] at h
      · simp [getPluginInstance, callFunction, getFunction,
          PluginLoader.isLoaded, hL, hpl, hf] at h
        obtain ⟨h1, h2, h3⟩ := h
        subst h2
        simp [getPluginInstance, PluginLoader.isLoaded, hL, h1, hp]
    · simp [getPluginInstance, PluginLoader.isLoaded, hL, hpl] at h
      obtain ⟨h1, h2, h3⟩ := h
      subst h2
      simp [getPluginInstance, PluginLoader.isLoaded, hL, hpl, h1, hp]

/-- Witness for C3: the first call on a Loaded loader caches pointer 9;
the theorem yields that a second call returns the same pointer. -/
theorem instance_cached_idempotent_witness :
    getPluginInstance osGood
      { name_ := "p", plugin_ := 9, libHandle_ := 5, errorMsg_ := "" } =
      some (9, { name_ := "p", plugin_ := 9, libHandle_ := 5, errorMsg_ := "" }, []) :=
  instance_cached_idempotent osGood
    { name_ := "p", plugin_ := 0, libHandle_ := 5, errorMsg_ := "" }
    { name_ := "p", plugin_ := 9, libHandle_ := 5, errorMsg_ := "" }
    9 [PLUGIN_FACTORY_CREATE] (by decide) (by decide)

/-- Claim C6: when `unload()` runs on a loaded loader and the OS close
fails, it returns `false`, the cached facade pointer is cleared anyway,
and the library handle is kept, so `isLoaded()` stays `true`.  (The
hypothesis on the destroy symbol excludes the `assert` abort when a
facade is cached.) -/
theorem unload_close_failure_keeps_handle (os : OS) (l : PluginLoader)
    (hL : l.isLoaded = true) (hc : os.dlclose l.libHandle_ = false)
    (hd : l.plugin_ ≠ 0 → os.dlsym l.libHandle_ PLUGIN_FACTORY_DESTROY ≠ 0) :
    ∃ l' ev, unload os l = some (false, l', ev) ∧ l'.plugin_ = 0 ∧
      l'.libHandle_ = l.libHandle_ ∧ l'.isLoaded = true := by
  rw [isLoaded_true_iff] at hL
  by_cases hp : l.plugin_ = 0
  · refine ⟨saveErrorMsg (os.closeMsg l.libHandle_) l, [], ?_, ?_, ?_, ?_⟩
    · simp [unload, unloadLibrary, PluginLoader.isLoaded, hL, hc, hp]
    · simp [hp]
    · simp
    · simp [hL]
  · have hs := hd hp
    refine ⟨saveErrorMsg (os.closeMsg l.libHandle_) { l with plugin_ := 0 },
      [PLUGIN_FACTORY_DESTROY], ?_, ?_, ?_, ?_⟩
    · simp [unload, unloadLibrary, callFunction, getFunction,
        PluginLoader.isLoaded, hL, hc, hp, hs]
    · simp
    · simp
    · simp [hL]

/-- Witness for C6: an Active loader (facade 9, handle 5) on an oracle
whose `dlclose` always fails. -/
theorem unload_close_failure_keeps_handle_witness :
    ∃ l' ev, unload osCloseFail
        { name_ := "p", plugin_ := 9, libHandle_ := 5, errorMsg_ := "" } =
        some (false, l', ev) ∧ l'.plugin_ = 0 ∧ l'.libHandle_ = 5 ∧
      l'.isLoaded = true :=
  unload_close_failure_keeps_handle osCloseFail
    { name_ := "p", plugin_ := 9, libHandle_ := 5, errorMsg_ := "" }
    (by decide) (by decide) (fun _ => by decide)

/-- Claim C7: `unload()` on an Unloaded loader is a no-op returning
`true` (no factory invoked); on an Active loader (cached facade, destroy
symbol resolvable) it invokes exactly the destroy-facade symbol, clears
the cached pointer, and then the result is whatever the OS close
returned. -/
theorem unload_noop_or_destroy (os : OS) (l : PluginLoader) :
    (l.isLoaded = false → unload os l = some (true, l, [])) ∧
    (l.isLoaded = true → l.plugin_ ≠ 0 →
      os.dlsym l.libHandle_ PLUGIN_FACTORY_DESTROY ≠ 0 →
      ∃ res l', unload os l = some (res, l', [PLUGIN_FACTORY_DESTROY]) ∧
        l'.plugin_ = 0 ∧ res = os.dlclose l.libHandle_) := by
  constructor
  · intro h
    rw [isLoaded_false_iff] at h
    simp [unload, PluginLoader.isLoaded, h]
  · intro hL hp hs
    rw [isLoaded_true_iff] at hL
    by_cases hc : os.dlclose l.libHandle_ = true
    · refine ⟨true, { l with plugin_ := 0, libHandle_ := 0 }, ?_, ?_, ?_⟩
      · simp [unload, unloadLibrary, callFunction, getFunction,
          PluginLoader.isLoaded, hL, hp, hs, hc]
      · simp
      · exact hc.symm
    · have hc' : os.dlclose l.libHandle_ = false := by
        simpa using hc
      refine ⟨false, saveErrorMsg (os.closeMsg l.libHandle_)
        { l with plugin_ := 0 }, ?_, ?_, ?_⟩
      · simp [unload, unloadLibrary, callFunction, getFunction,
          PluginLoader.isLoaded, hL, hp, hs, hc']
      · simp
      · exact hc'.symm

/-- Witness for C7: the no-op branch on a fresh loader and the destroying
branch on a reachable Active loader, on the same oracle. -/
theorem unload_noop_or_destroy_witness :
    unload osGood (PluginLoader.init "p") =
      some (true, PluginLoader.init "p", []) ∧
    ∃ res l', unload osGood
        { name_ := "p", plugin_ := 9, libHandle_ := 5, errorMsg_ := "" } =
        some (res, l', [PLUGIN_FACTORY_DESTROY]) ∧ l'.plugin_ = 0 ∧
      res = osGood.dlclose 5 :=
  ⟨(unload_noop_or_destroy osGood (PluginLoader.init "p")).1 (by decide),
   (unload_noop_or_destroy osGood
      { name_ := "p", plugin_ := 9, libHandle_ := 5, errorMsg_ := "" }).2
      (by decide) (by decide) (by decide)⟩

/-- Claim C1 counterexample: a loader in the Unloaded state with an empty
configured name, on an oracle whose `dlerror` always provides text for
every OS failure.  `load()` returns `false` and the loader stays
Unloaded, but no error message is recorded: `getErrorMsg()` on the
(unchanged) state is the empty string, because the empty-name failure
path returns before any OS-loader operation runs. -/
theorem load_empty_name_records_no_message :
    load osFail (PluginLoader.init "") =
      some (false, PluginLoader.init "", []) ∧
    (PluginLoader.init "").getErrorMsg = "" ∧
    (PluginLoader.init "").isLoaded = false := by
  decide

/-- Claim C1 (amended): from the Unloaded state, `load()` returns `true`
and transitions to Loaded iff the configured name is non-empty and the OS
open succeeds; otherwise it returns `false` and the loader stays
Unloaded.  An error message is recorded (and then retrievable through
`getErrorMsg()`) only when the OS open itself fails and provides
`dlerror` text; the empty-name failure leaves the state, including the
stored message, untouched. -/
theorem load_from_unloaded (os : OS) (l : PluginLoader)
    (h : l.libHandle_ = 0) :
    ∃ r l', load os l = some (r, l', []) ∧
      ((r = true ∧ l'.isLoaded = true) ↔
        (l.name_ ≠ "" ∧ os.dlopen l.name_ ≠ 0)) ∧
      (r = false → l'.isLoaded = false ∧ l'.plugin_ = l.plugin_) ∧
      (l.name_ = "" → r = false ∧ l' = l) ∧
      (∀ m, l.name_ ≠ "" → os.dlopen l.name_ = 0 →
        os.openMsg l.name_ = some m → r = false ∧ l'.getErrorMsg = m) := by
  by_cases hn : l.name_ = ""
  · refine ⟨false, l, ?_, ?_, ?_, ?_, ?_⟩
    · simp [load, PluginLoader.isLoaded, h, hn]
    · simp [hn]
    · simp [h]
    · simp
    · intro m hm
      exact absurd hn hm
  · by_cases ho : os.dlopen l.name_ = 0
    · refine ⟨false, saveErrorMsg (os.openMsg l.name_)
        { l with libHandle_ := os.dlopen l.name_ }, ?_, ?_, ?_, ?_, ?_⟩
      · simp [load, loadLibrary, PluginLoader.isLoaded, h, hn, ho]
      · simp [ho]
      · simp [ho]
      · intro hm
        exact absurd hm hn
      · intro m _ _ hmsg
        rw [hmsg]
        exact ⟨rfl, rfl⟩
    · refine ⟨true, { l with libHandle_ := os.dlopen l.name_ }, ?_, ?_, ?_, ?_, ?_⟩
      · simp [load, loadLibrary, PluginLoader.isLoaded, h, hn, ho]
      · simp [hn, ho]
      · simp
      · intro hm
        exact absurd hm hn
      · intro m _ ho2
        exact absurd ho2 ho

/-- Witness for C1 (amended) on a concrete Unloaded loader named "q"
whose open fails with message "cannot open q". -/
theorem load_from_unloaded_witness :
    ∃ r l', load osFail (PluginLoader.init "q") = some (r, l', []) ∧
      ((r = true ∧ l'.isLoaded = true) ↔
        ("q" ≠ "" ∧ osFail.dlopen "q" ≠ 0)) ∧
      (r = false → l'.isLoaded = false ∧ l'.plugin_ = 0) ∧
      ("q" = "" → r = false ∧ l' = PluginLoader.init "q") ∧
      (∀ m, "q" ≠ "" → osFail.dlopen "q" = 0 →
        osFail.openMsg "q" = some m → r = false ∧ l'.getErrorMsg = m) :=
  load_from_unloaded osFail (PluginLoader.init "q") rfl

/-- Shape of a completed `unload()` on a loaded loader: the cached facade
pointer is cleared, the name is untouched, the returned Boolean is the OS
close result, and the handle is zeroed exactly on success. -/
lemma unload_loaded_shape (os : OS) (l : PluginLoader) (res : Bool)
    (l1 : PluginLoader) (ev : List String) (hL : l.libHandle_ ≠ 0)
    (h : unload os l = some (res, l1, ev)) :
    l1.plugin_ = 0 ∧ l1.name_ = l.name_ ∧ res = os.dlclose l.libHandle_ ∧
    (res = true → l1.libHandle_ = 0) ∧
    (res = false → l1.libHandle_ = l.libHandle_) := by
  by_cases hp : l.plugin_ = 0
  · by_cases hc : os.dlclose l.libHandle_ = true
    · simp [unload, unloadLibrary, PluginLoader.isLoaded, hL, hp, hc] at h
      obtain ⟨h1, h2, h3⟩ := h
      subst h1
      subst h2
      simp [hp, hc]
    · have hc' : os.dlclose l.libHandle_ = false := by simpa using hc
      simp [unload, unloadLibrary, PluginLoader.isLoaded, hL, hp, hc'] at h
      obtain ⟨h1, h2, h3⟩ := h
      subst h1
      subst h2
      simp [hp, hc']
  · by_cases hs : os.dlsym l.libHandle_ PLUGIN_FACTORY_DESTROY = 0
    · simp [unload, callFunction, getFunction, PluginLoader.isLoaded,
        hL, hp, hs] at h
    · by_cases hc : os.dlclose l.libHandle_ = true
      · simp [unload, unloadLibrary, callFunction, getFunction,
          PluginLoader.isLoaded, hL, hp, hs, hc] at h
        obtain ⟨h1, h2, h3⟩ := h
        subst h1
        subst h2
        simp [hc]
      · have hc' : os.dlclose l.libHandle_ = false := by simpa using hc
        simp [unload, unloadLibrary, callFunction, getFunction,
          PluginLoader.isLoaded, hL, hp, hs, hc'] at h
        obtain ⟨h1, h2, h3⟩ := h
        subst h1
        subst h2
        simp [hc']

/-- Claim C2 counterexample: a reachable Loaded loader (library "p"
mapped at handle 5, then renamed to "") on an oracle whose `dlclose`
fails.  The second `load()` returns `false`, yet the loader still holds
the old library handle — `isLoaded()` is `true`, not the Unloaded state
the claim promises on failure. -/
theorem load_reload_failure_not_unloaded :
    load osCloseFail (PluginLoader.init "p") =
      some (true,
        { name_ := "p", plugin_ := 0, libHandle_ := 5, errorMsg_ := "" },
        []) ∧
    load osCloseFail
      (PluginLoader.setPluginName ""
        { name_ := "p", plugin_ := 0, libHandle_ := 5, errorMsg_ := "" }) =
      some (false,
        { name_ := "", plugin_ := 0, libHandle_ := 5, errorMsg_ := "close failed" },
        []) ∧
    ({ name_ := "", plugin_ := 0, libHandle_ := 5, errorMsg_ := "close failed" }
      : PluginLoader).isLoaded = true := by
  decide

/-- Claim C2 (amended): `load()` on a loaded loader first performs a full
unload and never leaves a stale facade pointer cached (`plugin_` is
always null afterwards).  On success the loader holds the freshly opened
handle.  On failure it is Unloaded — except when the internal unload's
OS close fails and the configured name is empty, in which case the old
handle is retained and `isLoaded()` stays `true`. -/
theorem load_reload_clears_facade (os : OS) (l : PluginLoader)
    (hL : l.isLoaded = true) (r : Bool) (l' : PluginLoader)
    (ev : List String) (h : load os l = some (r, l', ev)) :
    l'.plugin_ = 0 ∧ l'.name_ = l.name_ ∧
    (r = true → l'.isLoaded = true ∧ l'.libHandle_ = os.dlopen l.name_) ∧
    (r = false → l'.libHandle_ = 0 ∨
      (os.dlclose l.libHandle_ = false ∧ l.name_ = "" ∧
        l'.libHandle_ = l.libHandle_)) := by
  rw [isLoaded_true_iff] at hL
  unfold load at h
  rw [if_pos (isLoaded_true_iff l |>.mpr hL)] at h
  cases hu : unload os l with
  | none => rw [hu] at h; exact absurd h (by simp)
  | some u =>
    obtain ⟨res0, l1, ev1⟩ := u
    rw [hu] at h
    simp only [] at h
    obtain ⟨hq1, hq2, hq3, hq4, hq5⟩ :=
      unload_loaded_shape os l res0 l1 ev1 hL hu
    by_cases hn : l1.name_ = ""
    · rw [if_pos hn] at h
      simp only [Option.some.injEq, Prod.mk.injEq] at h
      obtain ⟨hr, hl', _⟩ := h
      subst hr
      subst hl'
      refine ⟨hq1, hq2, ?_, ?_⟩
      · intro hcontra
        exact absurd hcontra.symm (by simp)
      · intro _
        by_cases hres : res0 = true
        · exact Or.inl (hq4 hres)
        · have hres' : res0 = false := by simpa using hres
          refine Or.inr ⟨?_, ?_, hq5 hres'⟩
          · rw [hres'] at hq3
            exact hq3.symm
          · rw [← hq2]
            exact hn
    · rw [if_neg hn] at h
      by_cases ho : os.dlopen l1.name_ = 0
      · simp only [loadLibrary, ho, if_pos, if_true, Option.some.injEq,
          Prod.mk.injEq] at h
        obtain ⟨hr, hl', _⟩ := h
        subst hr
        subst hl'
        refine ⟨by simp [hq1], by simp [hq2], ?_, ?_⟩
        · intro hcontra
          exact absurd hcontra.symm (by simp)
        · intro _
          exact Or.inl (by simp [ho])
      · simp only [loadLibrary, ho, if_neg, if_false, Option.some.injEq,
          Prod.mk.injEq] at h
        obtain ⟨hr, hl', _⟩ := h
        subst hr
        subst hl'
        refine ⟨by simp [hq1], by simp [hq2], ?_, ?_⟩
        · intro _
          constructor
          · simp [PluginLoader.isLoaded, ho]
          · simp [hq2]
        · intro hcontra
          exact absurd hcontra.symm (by simp)

/-- Witness for C2 (amended): reloading an Active loader (facade 9 at
handle 5) of plugin "p" on the well-behaved oracle. -/
theorem load_reload_clears_facade_witness :
    ∃ r l' ev, load osGood
        { name_ := "p", plugin_ := 9, libHandle_ := 5, errorMsg_ := "" } =
        some (r, l', ev) ∧ l'.plugin_ = 0 ∧ l'.name_ = "p" ∧
      (r = true → l'.isLoaded = true ∧ l'.libHandle_ = osGood.dlopen "p") ∧
      (r = false → l'.libHandle_ = 0 ∨
        (osGood.dlclose 5 = false ∧ ("p" : String) = "" ∧
          l'.libHandle_ = 5)) := by
  refine ⟨true,
    { name_ := "p", plugin_ := 0, libHandle_ := 5, errorMsg_ := "" },
    [PLUGIN_FACTORY_DESTROY], ?_⟩
  have h : load osGood
      { name_ := "p", plugin_ := 9, libHandle_ := 5, errorMsg_ := "" } =
      some (true,
        { name_ := "p", plugin_ := 0, libHandle_ := 5, errorMsg_ := "" },
        [PLUGIN_FACTORY_DESTROY]) := by decide
  have hmain := load_reload_clears_facade osGood
    { name_ := "p", plugin_ := 9, libHandle_ := 5, errorMsg_ := "" }
    (by decide) true
    { name_ := "p", plugin_ := 0, libHandle_ := 5, errorMsg_ := "" }
    [PLUGIN_FACTORY_DESTROY] h
  exact ⟨h, hmain.1, hmain.2.1, hmain.2.2.1, hmain.2.2.2⟩

/-- Claim C9 counterexample: an Active loader (facade 9, library "p"
mapped at handle 5, reached by `load()` then `getPluginInstance()`) on an
oracle whose `dlclose` fails.  Destruction runs the teardown, but the
library handle survives: the destroyed loader leaves the library mapped. -/
theorem destructor_close_failure_leaves_mapped :
    run osCloseFail [Op.load, Op.getInstance] (PluginLoader.init "p") =
      some { name_ := "p", plugin_ := 9, libHandle_ := 5, errorMsg_ := "" } ∧
    destruct osCloseFail
      { name_ := "p", plugin_ := 9, libHandle_ := 5, errorMsg_ := "" } =
      some { name_ := "p", plugin_ := 0, libHandle_ := 5, errorMsg_ := "close failed" } ∧
    ({ name_ := "p", plugin_ := 0, libHandle_ := 5, errorMsg_ := "close failed" }
      : PluginLoader).isLoaded = true := by
  decide

/-- Claim C9 (amended): destruction performs exactly the teardown of
`unload()` (with the result discarded).  When the OS close succeeds (and
the destroy symbol resolves if a facade is cached), the destroyed loader
leaves the library unmapped; on an Active loader the destroy-facade
symbol is invoked and the cached pointer cleared.  A failing OS close,
however, leaves the library mapped. -/
theorem destructor_performs_unload (os : OS) (l : PluginLoader)
    (h1 : os.dlclose l.libHandle_ = true)
    (h2 : l.plugin_ ≠ 0 → os.dlsym l.libHandle_ PLUGIN_FACTORY_DESTROY ≠ 0) :
    destruct os l = (unload os l).map (fun r => r.2.1) ∧
    ∃ l', destruct os l = some l' ∧ l'.libHandle_ = 0 ∧
      (l.libHandle_ ≠ 0 → l.plugin_ ≠ 0 →
        unload os l = some (true, l', [PLUGIN_FACTORY_DESTROY]) ∧
        l'.plugin_ = 0) := by
  refine ⟨rfl, ?_⟩
  by_cases hL : l.libHandle_ = 0
  · refine ⟨l, ?_, hL, fun hc _ => absurd hL hc⟩
    simp [destruct, unload, PluginLoader.isLoaded, hL]
  · by_cases hp : l.plugin_ = 0
    · refine ⟨{ l with libHandle_ := 0 }, ?_, rfl, ?_⟩
      · simp [destruct, unload, unloadLibrary, PluginLoader.isLoaded,
          hL, hp, h1]
      · intro _ hp2
        exact absurd hp hp2
    · have hs := h2 hp
      refine ⟨{ l with plugin_ := 0, libHandle_ := 0 }, ?_, rfl, ?_⟩
      · simp [destruct, unload, unloadLibrary, callFunction, getFunction,
          PluginLoader.isLoaded, hL, hp, hs, h1]
      · intro _ _
        refine ⟨?_, rfl⟩
        simp [unload, unloadLibrary, callFunction, getFunction,
          PluginLoader.isLoaded, hL, hp, hs, h1]

/-- Witness for C9 (amended): destroying an Active loader (facade 9 at
handle 5) on the well-behaved oracle unmaps the library. -/
theorem destructor_performs_unload_witness :
    destruct osGood
        { name_ := "p", plugin_ := 9, libHandle_ := 5, errorMsg_ := "" } =
      (unload osGood
        { name_ := "p", plugin_ := 9, libHandle_ := 5, errorMsg_ := "" }).map
        (fun r => r.2.1) ∧
    ∃ l', destruct osGood
        { name_ := "p", plugin_ := 9, libHandle_ := 5, errorMsg_ := "" } =
        some l' ∧ l'.libHandle_ = 0 ∧
      ((5 : Nat) ≠ 0 → (9 : Nat) ≠ 0 →
        unload osGood
          { name_ := "p", plugin_ := 9, libHandle_ := 5, errorMsg_ := "" } =
          some (true, l', [PLUGIN_FACTORY_DESTROY]) ∧ l'.plugin_ = 0) :=
  destructor_performs_unload osGood
    { name_ := "p", plugin_ := 9, libHandle_ := 5, errorMsg_ := "" }
    (by decide) (fun _ => by decide)

/-- A completed `unload()` preserves the facade/handle invariant. -/
lemma unload_preserves_inv (os : OS) (l : PluginLoader) (res : Bool)
    (l1 : PluginLoader) (ev : List String) (hI : Inv l)
    (h : unload os l = some (res, l1, ev)) : Inv l1 := by
  by_cases hL : l.libHandle_ = 0
  · simp [unload, PluginLoader.isLoaded, hL] at h
    obtain ⟨_, h2, _⟩ := h
    subst h2
    exact hI
  · intro _
    have := (unload_loaded_shape os l res l1 ev hL h).1
    simp_all [Inv]

/-- A completed `load()` leaves no cached facade at all (given the
invariant held before), hence preserves the invariant. -/
lemma load_plugin_zero (os : OS) (l : PluginLoader) (r : Bool)
    (l' : PluginLoader) (ev : List String) (hI : Inv l)
    (h : load os l = some (r, l', ev)) : l'.plugin_ = 0 := by
  by_cases hL : l.libHandle_ = 0
  · have hp : l.plugin_ = 0 := by
      by_contra hc
      exact (hI hc) hL
    unfold load at h
    rw [if_neg (by simp [PluginLoader.isLoaded, hL])] at h
    simp only [] at h
    by_cases hn : l.name_ = ""
    · rw [if_pos hn] at h
      simp only [Option.some.injEq, Prod.mk.injEq] at h
      obtain ⟨_, h2, _⟩ := h
      subst h2
      exact hp
    · rw [if_neg hn] at h
      by_cases ho : os.dlopen l.name_ = 0
      · simp only [loadLibrary, ho, if_true, if_pos, Option.some.injEq,
          Prod.mk.injEq] at h
        obtain ⟨_, h2, _⟩ := h
        subst h2
        simp [hp]
      · simp only [loadLibrary, ho, if_false, if_neg, Option.some.injEq,
          Prod.mk.injEq] at h
        obtain ⟨_, h2, _⟩ := h
        subst h2
        exact hp
  · unfold load at h
    rw [if_pos (by simp [PluginLoader.isLoaded, hL])] at h
    cases hu : unload os l with
    | none => rw [hu] at h; exact absurd h (by simp)
    | some u =>
      obtain ⟨res0, l1, ev1⟩ := u
      rw [hu] at h
      simp only [] at h
      have hq1 := (unload_loaded_shape os l res0 l1 ev1 hL hu).1
      by_cases hn : l1.name_ = ""
      · rw [if_pos hn] at h
        simp only [Option.some.injEq, Prod.mk.injEq] at h
        obtain ⟨_, h2, _⟩ := h
        subst h2
        exact hq1
      · rw [if_neg hn] at h
        by_cases ho : os.dlopen l1.name_ = 0
        · simp only [loadLibrary, ho, if_true, if_pos, Option.some.injEq,
            Prod.mk.injEq] at h
          obtain ⟨_, h2, _⟩ := h
          subst h2
          simp [hq1]
        · simp only [loadLibrary, ho, if_false, if_neg, Option.some.injEq,
            Prod.mk.injEq] at h
          obtain ⟨_, h2, _⟩ := h
          subst h2
          exact hq1

/-- A completed `getPluginInstance()` preserves the facade/handle
invariant. -/
lemma getPluginInstance_preserves_inv (os : OS) (l : PluginLoader)
    (p : Nat) (l' : PluginLoader) (ev : List String) (hI : Inv l)
    (h : getPluginInstance os l = some (p, l', ev)) : Inv l' := by
  by_cases hL : l.libHandle_ = 0
  · simp [getPluginInstance, PluginLoader.isLoaded, hL] at h
    obtain ⟨_, h2, _⟩ := h
    subst h2
    exact hI
  · by_cases hp : l.plugin_ = 0
    · by_cases hf : os.dlsym l.libHandle_ PLUGIN_FACTORY_CREATE = 0
      · simp [getPluginInstance, callFunction, getFunction,
          PluginLoader.isLoaded, hL, hp, hf] at h
      · simp [getPluginInstance, callFunction, getFunction,
          PluginLoader.isLoaded, hL, hp, hf] at h
        obtain ⟨_, h2, _⟩ := h
        subst h2
        intro _
        simpa using hL
    · simp [getPluginInstance, PluginLoader.isLoaded, hL, hp] at h
      obtain ⟨_, h2, _⟩ := h
      subst h2
      exact hI

/-- Every public operation preserves the facade/handle invariant. -/
lemma step_preserves_inv (os : OS) (l : PluginLoader) (o : Op)
    (l' : PluginLoader) (hI : Inv l) (h : step os l o = some l') :
    Inv l' := by
  cases o with
  | load =>
    unfold step at h
    cases hop : load os l with
    | none => rw [hop] at h; exact absurd h (by simp)
    | some u =>
      obtain ⟨r, l1, ev⟩ := u
      rw [hop] at h
      simp only [Option.map, Option.some.injEq] at h
      subst h
      intro hc
      rw [load_plugin_zero os l r l1 ev hI hop] at hc
      exact absurd rfl hc
  | unload =>
    unfold step at h
    cases hop : unload os l with
    | none => rw [hop] at h; exact absurd h (by simp)
    | some u =>
      obtain ⟨r, l1, ev⟩ := u
      rw [hop] at h
      simp only [Option.map, Option.some.injEq] at h
      subst h
      exact unload_preserves_inv os l r l1 ev hI hop
  | getInstance =>
    unfold step at h
    cases hop : getPluginInstance os l with
    | none => rw [hop] at h; exact absurd h (by simp)
    | some u =>
      obtain ⟨p, l1, ev⟩ := u
      rw [hop] at h
      simp only [Option.map, Option.some.injEq] at h
      subst h
      exact getPluginInstance_preserves_inv os l p l1 ev hI hop
  | setName n =>
    simp only [step, Option.some.injEq] at h
    subst h
    exact hI
  | destruct =>
    unfold step destruct at h
    cases hop : unload os l with
    | none => rw [hop] at h; exact absurd h (by simp)
    | some u =>
      obtain ⟨r, l1, ev⟩ := u
      rw [hop] at h
      simp only [Option.map, Option.some.injEq] at h
      subst h
      exact unload_preserves_inv os l r l1 ev hI hop

/-- A completed run of public operations preserves the invariant. -/
lemma run_preserves_inv (os : OS) (ops : List Op) (l l' : PluginLoader)
    (hI : Inv l) (h : run os ops l = some l') : Inv l' := by
  induction ops generalizing l with
  | nil =>
    simp [run] at h
    subst h
    exact hI
  | cons o rest ih =>
    simp only [run] at h
    cases hs : step os l o with
    | none => rw [hs] at h; exact absurd h (by simp)
    | some l1 =>
      rw [hs] at h
      exact ih l1 (step_preserves_inv os l o l1 hI hs) h

/-- Claim C4: starting from a freshly constructed loader, no sequence of
`load()`, `unload()`, `getPluginInstance()`, `setPluginName()` and
destructor calls can leave a facade pointer cached while the library
handle is null. -/
theorem facade_only_while_loaded (os : OS) (name : String)
    (ops : List Op) (l' : PluginLoader)
    (h : run os ops (PluginLoader.init name) = some l') :
    l'.plugin_ ≠ 0 → l'.libHandle_ ≠ 0 :=
  run_preserves_inv os ops (PluginLoader.init name) l'
    (fun hc => absurd rfl hc) h

/-- Witness for C4: the sequence load; getPluginInstance on the
well-behaved oracle, ending in the Active state (facade 9, handle 5). -/
theorem facade_only_while_loaded_witness :
    0 < ({ name_ := "p", plugin_ := 9, libHandle_ := 5, errorMsg_ := "" }
      : PluginLoader).libHandle_ :=
  Nat.pos_of_ne_zero
    (facade_only_while_loaded osGood "p" [Op.load, Op.getInstance]
      { name_ := "p", plugin_ := 9, libHandle_ := 5, errorMsg_ := "" }
      (by decide) (by decide))

/-- Claim C10: the stored error message is written only by failed
OS-loader operations and no successful operation clears it.  After a
failed `load()` (open fails with `dlerror` text `m`), the message `m` is
still returned by `getErrorMsg()` after a subsequent successful
`load()` of another name, after a successful (no-op) `unload()`, and
after a `getPluginInstance()` call. -/
theorem errorMsg_persists_after_failure (os : OS) (l : PluginLoader)
    (m n2 : String) (hU : l.libHandle_ = 0) (hName : l.name_ ≠ "")
    (hOpenFail : os.dlopen l.name_ = 0)
    (hMsg : os.openMsg l.name_ = some m)
    (hn2 : n2 ≠ "") (hOpen2 : os.dlopen n2 ≠ 0) :
    ∃ l1, load os l = some (false, l1, []) ∧ l1.getErrorMsg = m ∧
      (∃ l2, load os (l1.setPluginName n2) = some (true, l2, []) ∧
        l2.getErrorMsg = m) ∧
      unload os l1 = some (true, l1, []) ∧
      getPluginInstance os l1 = some (0, l1, []) := by
  refine ⟨{ l with libHandle_ := 0, errorMsg_ := m }, ?_, rfl, ?_, ?_, ?_⟩
  · simp [load, loadLibrary, saveErrorMsg, PluginLoader.isLoaded, hU,
      hName, hOpenFail, hMsg]
  · refine
      ⟨{ l with name_ := n2, libHandle_ := os.dlopen n2, errorMsg_ := m },
        ?_, rfl⟩
    simp [load, loadLibrary, PluginLoader.setPluginName,
      PluginLoader.isLoaded, hn2, hOpen2]
  · simp [unload, PluginLoader.isLoaded]
  · simp [getPluginInstance, PluginLoader.isLoaded]

/-- Witness for C10: plugin "q" fails to open on `osGood` with message
"cannot open q"; afterwards loading "p" succeeds, unloading and
`getPluginInstance()` are no-ops, and the message survives them all. -/
theorem errorMsg_persists_after_failure_witness :
    ∃ l1, load osGood (PluginLoader.init "q") = some (false, l1, []) ∧
      l1.getErrorMsg = "cannot open q" ∧
      (∃ l2, load osGood (l1.setPluginName "p") = some (true, l2, []) ∧
        l2.getErrorMsg = "cannot open q") ∧
      unload osGood l1 = some (true, l1, []) ∧
      getPluginInstance osGood l1 = some (0, l1, []) :=
  errorMsg_persists_after_failure osGood (PluginLoader.init "q")
    "cannot open q" "p" rfl (by decide) (by decide) (by decide)
    (by decide) (by decide)

end Plugin
